import Mathlib

/-!
Verification of the Kuffner-Sternwarte lightmeter reader.

Shallow embedding of `lightmeter.py` and `lightmeter_table.py`:
the byte-level protocol decoders, the TAOS daylight calibration,
the sampling cycle of `Lightmeter.read`, the JSON line formatter
and the long-to-short field renaming of the companion table
converter.  Byte values are modelled as `Nat`, Python float
arithmetic as exact real (or rational) arithmetic, and Python
exceptions as `Option` failures.
-/

/-- Decode step of `Lightmeter._readTemperature` (lightmeter.py:122):
the Python expression `(raw[0] // 8 + raw[1] * 32) / 16`, with integer
floor division `//` and true division `/`. -/
def readTemperature (b0 b1 : ℕ) : ℚ :=
  ((b0 / 8 + b1 * 32 : ℕ) : ℚ) / 16

/-- Full `Lightmeter._readTemperature` response handling
(lightmeter.py:113-122): a response that is not exactly 2 bytes raises
`RuntimeError`, modelled as `none`. -/
def readTemperatureFrame (raw : List ℕ) : Option ℚ :=
  if raw.length = 2 then some (readTemperature (raw.getD 0 0) (raw.getD 1 0)) else none

/-- Translation of `Lightmeter._luxFromDaysensor` (lightmeter.py:124-139).
The channel ratio `Chr = Ch1 / Ch0` of two integer counts is an exact
rational; `Ch0 = 0` raises `ZeroDivisionError` in Python, modelled as
`none`, as is the (unreachable over a linear order) final `raise` of the
branch chain.  The branch values follow the source formulas, computed in
exact real arithmetic; the final line is `return Lux * Faktor` with
`Faktor = 21.0`. -/
noncomputable def luxFromDaysensor (Ch0 Ch1 : ℕ) : Option ℝ :=
  if Ch0 = 0 then none
  else
    let Chr : ℚ := (Ch1 : ℚ) / (Ch0 : ℚ)
    let Lux? : Option ℝ :=
      if Chr ≤ 0.50 then
        some (0.0304 * (Ch0 : ℝ) - 0.062 * (Ch0 : ℝ) * ((Ch1 : ℝ) / (Ch0 : ℝ)) ^ (1.4 : ℝ))
      else if 0.50 < Chr ∧ Chr ≤ 0.61 then
        some (0.0224 * (Ch0 : ℝ) - 0.031 * (Ch1 : ℝ))
      else if 0.61 < Chr ∧ Chr ≤ 0.80 then
        some (0.0128 * (Ch0 : ℝ) - 0.0153 * (Ch1 : ℝ))
      else if 0.80 < Chr ∧ Chr ≤ 1.30 then
        some (0.00146 * (Ch0 : ℝ) - 0.00112 * (Ch1 : ℝ))
      else if 1.30 < Chr then
        some 0
      else none
    Lux?.map (fun Lux => Lux * 21.0)

/-- Reference form of the calibration model as worded in the
specification (section 4.3 / claim C1): the pre-scale value selected by
`ratio = channel1Raw / channel0Raw` over half-open branches, multiplied
by the fixed constant 21.0.  Meaningful for `Ch0 > 0`. -/
noncomputable def calibrationSpec (Ch0 Ch1 : ℕ) : ℝ :=
  let ratio : ℚ := (Ch1 : ℚ) / (Ch0 : ℚ)
  21.0 *
    (if ratio ≤ 0.50 then
      0.0304 * (Ch0 : ℝ) - 0.062 * (Ch0 : ℝ) * ((Ch1 : ℝ) / (Ch0 : ℝ)) ^ (1.4 : ℝ)
    else if ratio ≤ 0.61 then 0.0224 * (Ch0 : ℝ) - 0.031 * (Ch1 : ℝ)
    else if ratio ≤ 0.80 then 0.0128 * (Ch0 : ℝ) - 0.0153 * (Ch1 : ℝ)
    else if ratio ≤ 1.30 then 0.00146 * (Ch0 : ℝ) - 0.00112 * (Ch1 : ℝ)
    else 0)

/-- The tuple `factors = (None, 120, 8, 4, 2, 1)` of
`Lightmeter._readLight` (lightmeter.py:149). -/
def rangeFactors : List (Option ℕ) := [none, some 120, some 8, some 4, some 2, some 1]

/-- Result triple `reading, daylight, isOK` returned by
`Lightmeter._readLight`. -/
structure LightResult where
  reading : ℕ
  daylight : ℝ
  isOK : Bool

/-- Observable steps of one sampling cycle: the timestamp capture
`unix = int(time())`, the issue of the `'L'` command, the invocation of
the daylight calibration, and the issue of the `'T'` command. -/
inductive LMEvent
  | captureTime
  | cmdLight
  | calibrate
  | cmdTemp
deriving DecidableEq

/-- Translation of `Lightmeter._readLight` (lightmeter.py:141-157),
with the trace of steps it performs.  A response that is not 7 bytes
raises (`none`); `factors[raw[2]]` raises `IndexError` for an index
past the tuple and `TypeError` for index 0 (entry `None`), both before
the calibration call; a zero channel-0 count then makes
`_luxFromDaysensor` raise. -/
noncomputable def readLightTr (raw : List ℕ) : Option LightResult × List LMEvent :=
  if raw.length = 7 then
    match rangeFactors[raw.getD 2 0]? with
    | none => (none, [LMEvent.cmdLight])
    | some none => (none, [LMEvent.cmdLight])
    | some (some factor) =>
      let TslMw0 := 256 * raw.getD 4 0 + raw.getD 3 0
      let TslMw1 := 256 * raw.getD 6 0 + raw.getD 5 0
      let rawReading := 256 * raw.getD 1 0 + raw.getD 0 0
      match luxFromDaysensor TslMw0 TslMw1 with
      | none => (none, [LMEvent.cmdLight, LMEvent.calibrate])
      | some daylight =>
        (some ⟨rawReading * factor, daylight, decide (rawReading < 32000)⟩,
         [LMEvent.cmdLight, LMEvent.calibrate])
  else (none, [LMEvent.cmdLight])

/-- Value part of `Lightmeter._readLight`. -/
noncomputable def readLight (raw : List ℕ) : Option LightResult :=
  (readLightTr raw).1

/-- Environment of one call to `Lightmeter.read`: the value of
`time()` at entry, the local timezone offset (in seconds) that
`datetime.fromtimestamp` applies, and the bytes the device returns for
the `'L'` and `'T'` commands. -/
structure LMEnv where
  now : ℚ
  tz : ℤ
  lightResp : List ℕ
  tempResp : List ℕ

/-- Python's `int()` truncation toward zero on a real value. -/
def pyInt (q : ℚ) : ℤ := if 0 ≤ q then ⌊q⌋ else ⌈q⌉

/-- Naive `datetime.fromtimestamp(t)`: the local wall-clock calendar
timestamp, encoded by the seconds-since-epoch value it displays.  A
naive timestamp `w` represents instant `t` as UTC exactly when `w = t`;
`fromtimestamp` yields `t + tz` for local offset `tz`. -/
def fromtimestamp (t tz : ℤ) : ℤ := t + tz

/-- The `Lightmeter.Reading` record (lightmeter.py:13-32): `utc` is the
naive calendar timestamp (encoded as the seconds-since-epoch it
displays), the remaining fields as in the source. -/
structure LMReading where
  utc : ℤ
  unix : ℤ
  lightlevel : ℕ
  daylight : ℝ
  temperature : ℚ
  status : Bool

/-- Translation of `Lightmeter.read` (lightmeter.py:49-57) together
with the trace of steps: `unix = int(time())`, then
`L, daylight, isOK = _readLight(...)`, then `T = _readTemperature(...)`,
then `utc = datetime.fromtimestamp(unix)` and assembly of the Reading.
An exception in either command propagates, so no Reading is produced. -/
noncomputable def lightmeterRead (env : LMEnv) : Option LMReading × List LMEvent :=
  let unix : ℤ := pyInt env.now
  match readLightTr env.lightResp with
  | (none, evs) => (none, LMEvent.captureTime :: evs)
  | (some L, evs) =>
    match readTemperatureFrame env.tempResp with
    | none => (none, LMEvent.captureTime :: evs ++ [LMEvent.cmdTemp])
    | some T =>
      (some ⟨fromtimestamp unix env.tz, unix, L.reading, L.daylight, T, L.isOK⟩,
       LMEvent.captureTime :: evs ++ [LMEvent.cmdTemp])

/-- A fully successful concrete environment: light frame
`[100, 0, 5, 50, 0, 30, 0]`, temperature bytes `[0, 8]`, local
timezone equal to UTC. -/
def envGood : LMEnv := ⟨100, 0, [100, 0, 5, 50, 0, 30, 0], [0, 8]⟩

/-- A successful concrete environment on a host whose local timezone is
one hour east of UTC (offset 3600 s), sampled at `time() = 100.5`. -/
def envEast : LMEnv := ⟨100.5, 3600, [100, 0, 5, 50, 0, 30, 0], [0, 8]⟩

/-- Rendered field values of a `Lightmeter.Reading` as they appear in
`Reading.json` (lightmeter.py:37-44): `utc.isoformat()` and the
`str(...)` forms of temperature, lightlevel and daylight that
`'{}'.format` interpolates, plus the boolean status.  `Reading.json`
only uses the string forms of these fields. -/
structure RenderedReading where
  utcIso : List Char
  temperatureStr : List Char
  lightlevelStr : List Char
  daylightStr : List Char
  status : Bool

/-- The tuple `Reading._colOrder` (lightmeter.py:34), as key strings. -/
def longNamesL : List (List Char) :=
  [['u', 't', 'c'],
   ['t', 'e', 'm', 'p', 'e', 'r', 'a', 't', 'u', 'r', 'e'],
   ['l', 'i', 'g', 'h', 't', 'l', 'e', 'v', 'e', 'l'],
   ['d', 'a', 'y', 'l', 'i', 'g', 'h', 't'],
   ['s', 't', 'a', 't', 'u', 's']]

/-- The tuple `Reading._abbrevOrder` (lightmeter.py:35). -/
def shortNamesL : List (List Char) :=
  [['T', 'S'], ['T'], ['L'], ['D'], ['S']]

/-- The values `dct[x]` for `x` in `_colOrder` after the rewrites of
`Reading.json`: `dct['utc']` is wrapped in double quotes, `dct['status']`
becomes `true`/`false`. -/
def jsonValueStrs (r : RenderedReading) : List (List Char) :=
  ['"' :: r.utcIso ++ ['"'],
   r.temperatureStr,
   r.lightlevelStr,
   r.daylightStr,
   if r.status then ['t', 'r', 'u', 'e'] else ['f', 'a', 'l', 's', 'e']]

/-- One `'"{}": {}'.format(y, dct[x])` entry of `Reading.json`. -/
def jsonEntry (key val : List Char) : List Char :=
  '"' :: key ++ '"' :: ':' :: ' ' :: val

/-- Translation of `Reading.json(abbrev)` (lightmeter.py:37-44): the
entries zip `_colOrder` values with the displayed key names, are joined
with a comma-space separator and wrapped in braces. -/
def jsonLine (abbr : Bool) (r : RenderedReading) : List Char :=
  let order := if abbr then shortNamesL else longNamesL
  '\x7b' :: List.intercalate [',', ' '] (List.zipWith jsonEntry order (jsonValueStrs r)) ++ ['\x7d']

/-- Fuel-indexed left-to-right, non-overlapping replacement of pattern
`p` by `r`, the semantics of Python's `str.replace` for a non-empty
pattern.  The fuel only serves termination; `replaceL` supplies enough. -/
def replaceFuel : ℕ → List Char → List Char → List Char → List Char
  | 0, _, _, s => s
  | n + 1, p, r, s =>
    if p = [] then s
    else if p <+: s then r ++ replaceFuel n p r (s.drop p.length)
    else
      match s with
      | [] => []
      | c :: t => c :: replaceFuel n p r t

/-- Python's `line.replace(long, short)` for a non-empty pattern. -/
def replaceL (p r s : List Char) : List Char := replaceFuel s.length p r s

/-- The `zip(longNames, shortNames)` pairs of lightmeter_table.py:59-60. -/
def renamePairs : List (List Char × List Char) := List.zip longNamesL shortNamesL

/-- A rendered value string that does not contain any of the five long
field names as a substring.  The renderings the program produces (an
ISO-8601 timestamp, decimal numbers, `true`/`false`) all satisfy this. -/
def noLongName (v : List Char) : Prop := ∀ p ∈ longNamesL, ¬ p <:+: v

/-- A concrete rendered Reading used as evaluation witness. -/
def sampleRendered : RenderedReading :=
  ⟨("2024-01-01T00:00:00").toList, ("16.0").toList, ("100").toList, ("3.99").toList, true⟩

/-- Python's `line.rstrip()`. -/
def pyRstrip (s : List Char) : List Char := (s.reverse.dropWhile Char.isWhitespace).reverse

/-- Per-line processing of the lightmeter_table.py main loop (lines
73-77): when the literal substring `lightlevel` is present the five
long-to-short replacements run in order, then the line is rstripped. -/
def convertLine (line : List Char) : List Char :=
  let renamed :=
    if ['l', 'i', 'g', 'h', 't', 'l', 'e', 'v', 'e', 'l'] <:+: line then
      renamePairs.foldl (fun l pr => replaceL pr.1 pr.2 l) line
    else line
  pyRstrip renamed

/-- The `jsonSchemaPrefix` string of lightmeter_table.py:9-35, verbatim. -/
def jsonSchemaHeader : List Char :=
  ("\x7b\"schema\": \x7b\n    \"primaryKey\": [\"TS\"],\n    \"fields\": [\n        \x7b\"name\": \"TS\",\n         \"type\": \"datetime\",\n         \"title\": \"Timestamp\",\n         \"description\": \"ISO8601 string, UTC\"\x7d,\n        \x7b\"name\": \"T\",\n         \"type\": \"number\",\n         \"title\": \"Temperature\",\n         \"description\": \"Temperature in degrees Celsius\"\x7d,\n        \x7b\"name\": \"L\",\n         \"type\": \"integer\",\n         \"title\": \"Light level\",\n         \"description\": \"Light level counts, no calibration\"\x7d,\n        \x7b\"name\": \"D\",\n         \"type\": \"integer\",\n         \"title\": \"Daylight\",\n         \"description\": \"Daylight sensor reading in Lux\"\x7d,\n        \x7b\"name\": \"S\",\n         \"type\": \"boolean\",\n         \"title\": \"Status\",\n         \"description\": \"True if everything is OK, false otherwise\"\x7d\n    ]\n \x7d,\n \"data\": [").toList

/-- The record lines emitted by the lightmeter_table.py main loop:
`print(printComma, line, end='', sep='\n')` outputs the pending comma
(empty for the first record), a newline, then the converted line. -/
def tableBody : List (List Char) → Bool → List Char
  | [], _ => []
  | l :: ls, comma => (if comma then [','] else []) ++ '\n' :: convertLine l ++ tableBody ls true

/-- Whole-run output of the lightmeter_table.py converter on a finite
input stream: the schema preamble printed without a newline, the
records, and the `finish` handler's `print('\n]}')` that runs once at
exit (also after zero records). -/
def tableOutput (lines : List (List Char)) : List Char :=
  jsonSchemaHeader ++ tableBody lines false ++ ('\n' :: ']' :: '\x7d' :: ['\n'])

/-! ## Helper lemmas -/

/-- For a nonzero channel-0 count the branch chain of
`_luxFromDaysensor` always produces a value: the final `raise` is
unreachable. -/
theorem luxFromDaysensor_total (Ch0 Ch1 : ℕ) (h : Ch0 ≠ 0) :
    ∃ v : ℝ, luxFromDaysensor Ch0 Ch1 = some v := by
  unfold luxFromDaysensor
  rw [if_neg h]
  dsimp only
  set r : ℚ := (Ch1 : ℚ) / (Ch0 : ℚ) with hr
  by_cases h1 : r ≤ 0.50
  · rw [if_pos h1]; exact ⟨_, rfl⟩
  · have h1' : (0.50 : ℚ) < r := not_le.mp h1
    rw [if_neg h1]
    by_cases h2 : r ≤ 0.61
    · rw [if_pos ⟨h1', h2⟩]; exact ⟨_, rfl⟩
    · have h2' : (0.61 : ℚ) < r := not_le.mp h2
      rw [if_neg (fun hc => h2 hc.2)]
      by_cases h3 : r ≤ 0.80
      · rw [if_pos ⟨h2', h3⟩]; exact ⟨_, rfl⟩
      · have h3' : (0.80 : ℚ) < r := not_le.mp h3
        rw [if_neg (fun hc => h3 hc.2)]
        by_cases h4 : r ≤ 1.30
        · rw [if_pos ⟨h3', h4⟩]; exact ⟨_, rfl⟩
        · rw [if_neg (fun hc => h4 hc.2), if_pos (not_le.mp h4)]
          exact ⟨_, rfl⟩

/-! ## Claims -/

/-- C1: for all non-negative integer channel counts with
`channel0Raw > 0`, `_luxFromDaysensor` returns exactly 21.0 times the
pre-scale value selected by the half-open ratio branches of the
specification (negative values passed through unclamped), and for the
light frame `[100, 0, 5, 50, 0, 30, 0]` the resulting daylight
illuminance equals 3.99. -/
theorem calibration_piecewise (Ch0 Ch1 : ℕ) (h : 0 < Ch0) :
    luxFromDaysensor Ch0 Ch1 = some (calibrationSpec Ch0 Ch1) ∧
    (readLight [100, 0, 5, 50, 0, 30, 0]).map LightResult.daylight = some (3.99 : ℝ) := by
  constructor
  · unfold luxFromDaysensor calibrationSpec
    rw [if_neg (Nat.pos_iff_ne_zero.mp h)]
    dsimp only
    set r : ℚ := (Ch1 : ℚ) / (Ch0 : ℚ) with hr
    by_cases h1 : r ≤ 0.50
    · rw [if_pos h1, if_pos h1]
      simp only [Option.map_some']
      congr 1
      ring
    · have h1' : (0.50 : ℚ) < r := not_le.mp h1
      rw [if_neg h1, if_neg h1]
      by_cases h2 : r ≤ 0.61
      · rw [if_pos ⟨h1', h2⟩, if_pos h2]
        simp only [Option.map_some']
        congr 1
        ring
      · have h2' : (0.61 : ℚ) < r := not_le.mp h2
        rw [if_neg (fun hc => h2 hc.2), if_neg h2]
        by_cases h3 : r ≤ 0.80
        · rw [if_pos ⟨h2', h3⟩, if_pos h3]
          simp only [Option.map_some']
          congr 1
          ring
        · have h3' : (0.80 : ℚ) < r := not_le.mp h3
          rw [if_neg (fun hc => h3 hc.2), if_neg h3]
          by_cases h4 : r ≤ 1.30
          · rw [if_pos ⟨h3', h4⟩, if_pos h4]
            simp only [Option.map_some']
            congr 1
            ring
          · rw [if_neg (fun hc => h4 hc.2), if_neg h4, if_pos (not_le.mp h4)]
            simp only [Option.map_some']
            congr 1
            ring
  · have hl : luxFromDaysensor 50 30 = some (3.99 : ℝ) := by
      unfold luxFromDaysensor
      norm_num
    unfold readLight readLightTr
    norm_num [rangeFactors, hl]

/-- Witness for C1 at `(Ch0, Ch1) = (50, 30)`. -/
theorem calibration_piecewise_witness :
    0 < 50 ∧
    (luxFromDaysensor 50 30 = some (calibrationSpec 50 30) ∧
     (readLight [100, 0, 5, 50, 0, 30, 0]).map LightResult.daylight = some (3.99 : ℝ)) :=
  ⟨by norm_num, calibration_piecewise 50 30 (by norm_num)⟩

/-- C2: the decoded temperature equals `(b0 >> 3 + b1 * 32) / 16.0`
where the two partial sums are added; bytes `(0, 8)` decode to 16.0 and
`(255, 0)` to 1.9375. -/
theorem temperature_decode (b0 b1 : ℕ) (h0 : b0 ≤ 255) (h1 : b1 ≤ 255) :
    readTemperature b0 b1 = (((b0 >>> 3 : ℕ) : ℚ) + (b1 : ℚ) * 32) / 16 ∧
    readTemperature 0 8 = 16 ∧ readTemperature 255 0 = 1.9375 := by
  refine ⟨?_, by norm_num [readTemperature], by norm_num [readTemperature]⟩
  unfold readTemperature
  rw [Nat.shiftRight_eq_div_pow]
  push_cast
  norm_num

/-- Witness for C2 at `(b0, b1) = (255, 8)`. -/
theorem temperature_decode_witness :
    255 ≤ 255 ∧ 8 ≤ 255 ∧
    (readTemperature 255 8 = (((255 >>> 3 : ℕ) : ℚ) + (8 : ℚ) * 32) / 16 ∧
     readTemperature 0 8 = 16 ∧ readTemperature 255 0 = 1.9375) :=
  ⟨by norm_num, by norm_num, temperature_decode 255 8 (by norm_num) (by norm_num)⟩

/-- C7: calibration with `channel0Raw = 0` fails (Python raises
`ZeroDivisionError`; no `NaN`/`Infinity` value is produced), and with
`channel0Raw > 0` it never raises. -/
theorem calibration_zero_channel (c0 c1 : ℕ) :
    (c0 = 0 → luxFromDaysensor c0 c1 = none) ∧
    (0 < c0 → ∃ v : ℝ, luxFromDaysensor c0 c1 = some v) := by
  constructor
  · intro h
    subst h
    unfold luxFromDaysensor
    rw [if_pos rfl]
  · intro h
    exact luxFromDaysensor_total c0 c1 (Nat.pos_iff_ne_zero.mp h)

/-- Witness for C7 at `c0 = 0` and at `c0 = 50`. -/
theorem calibration_zero_channel_witness :
    luxFromDaysensor 0 30 = none ∧ ∃ v : ℝ, luxFromDaysensor 50 30 = some v :=
  ⟨(calibration_zero_channel 0 30).1 rfl, (calibration_zero_channel 50 30).2 (by norm_num)⟩

/-- C10: for byte inputs the decoded temperature always lies in
`[0, 511.9375]`; in particular it is never negative. -/
theorem temperature_range (b0 b1 : ℕ) (h0 : b0 ≤ 255) (h1 : b1 ≤ 255) :
    0 ≤ readTemperature b0 b1 ∧ readTemperature b0 b1 ≤ 511.9375 := by
  unfold readTemperature
  constructor
  · positivity
  · rw [div_le_iff₀ (by norm_num)]
    have hn : b0 / 8 + b1 * 32 ≤ 8191 := by omega
    calc ((b0 / 8 + b1 * 32 : ℕ) : ℚ) ≤ 8191 := by exact_mod_cast hn
    _ ≤ 511.9375 * 16 := by norm_num

/-- Witness for C10 at `(b0, b1) = (255, 255)`. -/
theorem temperature_range_witness :
    255 ≤ 255 ∧ 255 ≤ 255 ∧
    (0 ≤ readTemperature 255 255 ∧ readTemperature 255 255 ≤ 511.9375) :=
  ⟨le_refl 255, le_refl 255, temperature_range 255 255 (le_refl 255) (le_refl 255)⟩

/-- C6: a 7-byte light response whose range index is 0 or exceeds 5
makes the decode fail (`TypeError` on the `None` entry, `IndexError`
past the tuple); no factor is silently substituted. -/
theorem range_index_error (b0 b1 b2 b3 b4 b5 b6 : ℕ) (hb : b2 = 0 ∨ 5 < b2) :
    readLight [b0, b1, b2, b3, b4, b5, b6] = none := by
  unfold readLight readLightTr
  rcases hb with h | h
  · subst h
    simp [rangeFactors, List.getD]
  · have hnone : rangeFactors[b2]? = none := by
      rw [List.getElem?_eq_none]
      simp only [rangeFactors, List.length_cons, List.length_nil]
      omega
    simp [List.getD, hnone]

/-- Witness for C6 at the frames `[0,0,0,0,0,0,0]` and `[0,0,6,0,0,0,0]`. -/
theorem range_index_error_witness :
    readLight [0, 0, 0, 0, 0, 0, 0] = none ∧ readLight [0, 0, 6, 0, 0, 0, 0] = none :=
  ⟨range_index_error 0 0 0 0 0 0 0 (Or.inl rfl),
   range_index_error 0 0 6 0 0 0 0 (Or.inr (by norm_num))⟩

/-- C3 counterexample: the frame `[0, 0, 5, 0, 0, 0, 0]` has range
index 5 (valid, in 1..5), yet the decode yields no values at all: the
calibration call raises `ZeroDivisionError` on `channel0Raw = 0`, so
the claim as stated fails for this frame. -/
theorem light_decode_cex :
    ¬ ∃ res : LightResult, readLight [0, 0, 5, 0, 0, 0, 0] = some res := by
  have h0 : luxFromDaysensor 0 0 = none := by
    unfold luxFromDaysensor
    rw [if_pos rfl]
  have h : readLight [0, 0, 5, 0, 0, 0, 0] = none := by
    unfold readLight readLightTr
    norm_num [rangeFactors, List.getD, h0]
  rintro ⟨res, hres⟩
  rw [h] at hres
  exact Option.noConfusion hres

/-- C3 (amended): for a 7-byte light response with range index in 1..5
and a nonzero channel-0 count, the decode succeeds and yields
`lightLevel = (b0 + 256*b1) * rangeFactor`, the daylight value of the
little-endian channel counts `b3 + 256*b4` and `b5 + 256*b6`, and
`status = (b0 + 256*b1 < 32000)` with a strict comparison. -/
theorem light_decode (b0 b1 b2 b3 b4 b5 b6 : ℕ)
    (hby : b0 ≤ 255 ∧ b1 ≤ 255 ∧ b2 ≤ 255 ∧ b3 ≤ 255 ∧ b4 ≤ 255 ∧ b5 ≤ 255 ∧ b6 ≤ 255)
    (hr : 1 ≤ b2 ∧ b2 ≤ 5) (hch : 0 < b3 + 256 * b4) :
    ∃ res : LightResult,
      readLight [b0, b1, b2, b3, b4, b5, b6] = some res ∧
      res.reading = (b0 + 256 * b1) * ([120, 8, 4, 2, 1].getD (b2 - 1) 0) ∧
      luxFromDaysensor (b3 + 256 * b4) (b5 + 256 * b6) = some res.daylight ∧
      res.isOK = decide (b0 + 256 * b1 < 32000) := by
  obtain ⟨v, hv⟩ := luxFromDaysensor_total (256 * b4 + b3) (256 * b6 + b5) (by omega)
  have hcomm : luxFromDaysensor (b3 + 256 * b4) (b5 + 256 * b6) = some v := by
    rw [show b3 + 256 * b4 = 256 * b4 + b3 from Nat.add_comm _ _,
        show b5 + 256 * b6 = 256 * b6 + b5 from Nat.add_comm _ _]
    exact hv
  obtain ⟨hr1, hr2⟩ := hr
  interval_cases b2
  · exact ⟨⟨(256 * b1 + b0) * 120, v, decide (256 * b1 + b0 < 32000)⟩,
      by unfold readLight readLightTr; norm_num [rangeFactors, List.getD, hv],
      by simp only [List.getD]; norm_num; ring,
      hcomm, by rw [Nat.add_comm b0 (256 * b1)]⟩
  · exact ⟨⟨(256 * b1 + b0) * 8, v, decide (256 * b1 + b0 < 32000)⟩,
      by unfold readLight readLightTr; norm_num [rangeFactors, List.getD, hv],
      by simp only [List.getD]; norm_num; ring,
      hcomm, by rw [Nat.add_comm b0 (256 * b1)]⟩
  · exact ⟨⟨(256 * b1 + b0) * 4, v, decide (256 * b1 + b0 < 32000)⟩,
      by unfold readLight readLightTr; norm_num [rangeFactors, List.getD, hv],
      by simp only [List.getD]; norm_num; ring,
      hcomm, by rw [Nat.add_comm b0 (256 * b1)]⟩
  · exact ⟨⟨(256 * b1 + b0) * 2, v, decide (256 * b1 + b0 < 32000)⟩,
      by unfold readLight readLightTr; norm_num [rangeFactors, List.getD, hv],
      by simp only [List.getD]; norm_num; ring,
      hcomm, by rw [Nat.add_comm b0 (256 * b1)]⟩
  · exact ⟨⟨(256 * b1 + b0) * 1, v, decide (256 * b1 + b0 < 32000)⟩,
      by unfold readLight readLightTr; norm_num [rangeFactors, List.getD, hv],
      by simp only [List.getD]; norm_num; ring,
      hcomm, by rw [Nat.add_comm b0 (256 * b1)]⟩

/-- Witness for C3 (amended) at the frame `[100, 0, 5, 50, 0, 30, 0]`. -/
theorem light_decode_witness :
    (100 ≤ 255 ∧ 0 ≤ 255 ∧ 5 ≤ 255 ∧ 50 ≤ 255 ∧ 0 ≤ 255 ∧ 30 ≤ 255 ∧ 0 ≤ 255) ∧
    (1 ≤ 5 ∧ 5 ≤ 5) ∧ 0 < 50 + 256 * 0 ∧
    ∃ res : LightResult,
      readLight [100, 0, 5, 50, 0, 30, 0] = some res ∧
      res.reading = (100 + 256 * 0) * ([120, 8, 4, 2, 1].getD (5 - 1) 0) ∧
      luxFromDaysensor (50 + 256 * 0) (30 + 256 * 0) = some res.daylight ∧
      res.isOK = decide (100 + 256 * 0 < 32000) :=
  ⟨by norm_num, by norm_num, by norm_num,
   light_decode 100 0 5 50 0 30 0 (by norm_num) (by norm_num) (by norm_num)⟩

/-- The `_readLight` trace never contains the temperature command, and
on success it is exactly the light command followed by the calibration
call. -/
theorem readLightTr_trace (raw : List ℕ) :
    (readLightTr raw).2 = [LMEvent.cmdLight] ∨
    (readLightTr raw).2 = [LMEvent.cmdLight, LMEvent.calibrate] := by
  unfold readLightTr
  split
  · split
    · simp
    · simp
    · dsimp only
      split <;> simp
  · simp

/-- On a successful light read the trace includes the calibration. -/
theorem readLightTr_trace_of_isSome (raw : List ℕ)
    (h : (readLightTr raw).1.isSome = true) :
    (readLightTr raw).2 = [LMEvent.cmdLight, LMEvent.calibrate] := by
  unfold readLightTr at *
  revert h
  split
  · split
    · simp
    · simp
    · dsimp only
      split <;> simp
  · simp

/-- C4 counterexample: `envGood` is a fully successful cycle, yet its
step order is capture, light command, calibration, temperature command
— not the claimed capture, temperature, light, calibration order.  In
the source, `Lightmeter.read` calls `_readLight` (which already
computes the illuminance) before `_readTemperature`. -/
theorem read_order_cex :
    (lightmeterRead envGood).1.isSome = true ∧
    (lightmeterRead envGood).2 =
      [LMEvent.captureTime, LMEvent.cmdLight, LMEvent.calibrate, LMEvent.cmdTemp] ∧
    (lightmeterRead envGood).2 ≠
      [LMEvent.captureTime, LMEvent.cmdTemp, LMEvent.cmdLight, LMEvent.calibrate] := by
  have hl : luxFromDaysensor 50 30 = some (3.99 : ℝ) := by
    unfold luxFromDaysensor
    norm_num
  have hres : readLightTr [100, 0, 5, 50, 0, 30, 0] =
      (some ⟨100, 3.99, true⟩, [LMEvent.cmdLight, LMEvent.calibrate]) := by
    unfold readLightTr
    norm_num [rangeFactors, List.getD, hl]
  have ht : readTemperatureFrame envGood.tempResp = some 16 := by
    norm_num [readTemperatureFrame, readTemperature, envGood, List.getD]
  have hread : lightmeterRead envGood =
      (some ⟨fromtimestamp (pyInt envGood.now) envGood.tz, pyInt envGood.now,
             100, 3.99, 16, true⟩,
       [LMEvent.captureTime, LMEvent.cmdLight, LMEvent.calibrate, LMEvent.cmdTemp]) := by
    unfold lightmeterRead
    rw [show envGood.lightResp = [100, 0, 5, 50, 0, 30, 0] from rfl, hres, ht]
    rfl
  rw [hread]
  exact ⟨rfl, rfl, by decide⟩

/-- C4 (amended): the order of a sampling cycle is capture the
timestamp, then issue and decode the light frame (computing the
illuminance inside that step), then issue and decode the temperature
command, then assemble the Reading; any failure in either command
aborts the whole cycle, so no partial Reading is ever exposed and a
light-command failure prevents the temperature command from being
issued. -/
theorem read_order (env : LMEnv) :
    ((lightmeterRead env).1.isSome = true →
      (lightmeterRead env).2 =
        [LMEvent.captureTime, LMEvent.cmdLight, LMEvent.calibrate, LMEvent.cmdTemp]) ∧
    ((readLightTr env.lightResp).1 = none →
      (lightmeterRead env).1 = none ∧ LMEvent.cmdTemp ∉ (lightmeterRead env).2) ∧
    (readTemperatureFrame env.tempResp = none → (lightmeterRead env).1 = none) := by
  rcases hlt : readLightTr env.lightResp with ⟨l, evs⟩
  have hevs := readLightTr_trace env.lightResp
  rw [hlt] at hevs
  dsimp only at hevs
  rcases l with _ | L
  · have hread : lightmeterRead env = (none, LMEvent.captureTime :: evs) := by
      unfold lightmeterRead
      rw [hlt]
    rw [hread]
    refine ⟨fun hc => by simp at hc, fun _ => ⟨rfl, ?_⟩, fun _ => rfl⟩
    rcases hevs with h | h <;> subst h <;> decide
  · have hsome : (readLightTr env.lightResp).1.isSome = true := by
      rw [hlt]
      rfl
    have hevs2 : evs = [LMEvent.cmdLight, LMEvent.calibrate] := by
      have h := readLightTr_trace_of_isSome env.lightResp hsome
      rw [hlt] at h
      exact h
    subst hevs2
    rcases ht : readTemperatureFrame env.tempResp with _ | T
    · have hread : lightmeterRead env =
          (none, LMEvent.captureTime ::
            [LMEvent.cmdLight, LMEvent.calibrate] ++ [LMEvent.cmdTemp]) := by
        unfold lightmeterRead
        rw [hlt, ht]
      rw [hread]
      refine ⟨fun hc => by simp at hc, fun hc => ?_, fun _ => rfl⟩
      simp at hc
    · have hread : lightmeterRead env =
          (some ⟨fromtimestamp (pyInt env.now) env.tz, pyInt env.now,
                 L.reading, L.daylight, T, L.isOK⟩,
           LMEvent.captureTime ::
             [LMEvent.cmdLight, LMEvent.calibrate] ++ [LMEvent.cmdTemp]) := by
        unfold lightmeterRead
        rw [hlt, ht]
      rw [hread]
      refine ⟨fun _ => rfl, fun hc => ?_, fun hc => ?_⟩
      · simp at hc
      · simp at hc

/-- Witness for C4 (amended) at `envGood`: the success hypothesis of
the first conjunct is discharged concretely. -/
theorem read_order_witness :
    (lightmeterRead envGood).2 =
      [LMEvent.captureTime, LMEvent.cmdLight, LMEvent.calibrate, LMEvent.cmdTemp] := by
  refine (read_order envGood).1 ?_
  have hl : luxFromDaysensor 50 30 = some (3.99 : ℝ) := by
    unfold luxFromDaysensor
    norm_num
  have hres : readLightTr [100, 0, 5, 50, 0, 30, 0] =
      (some ⟨100, 3.99, true⟩, [LMEvent.cmdLight, LMEvent.calibrate]) := by
    unfold readLightTr
    norm_num [rangeFactors, List.getD, hl]
  have ht : readTemperatureFrame envGood.tempResp = some 16 := by
    norm_num [readTemperatureFrame, readTemperature, envGood, List.getD]
  unfold lightmeterRead
  rw [show envGood.lightResp = [100, 0, 5, 50, 0, 30, 0] from rfl, hres, ht]
  rfl

/-- C5: evaluation at the failing environment `envEast` (local zone one
hour east of UTC, `time() = 100.5`).  The Reading's `unix` field is the
floor of the captured instant, but its `utc` field is the local
wall-clock timestamp `datetime.fromtimestamp` produces: read as a UTC
calendar timestamp it denotes the instant 3700, not the sampled instant
100, contradicting the claim whenever the host timezone is not UTC. -/
theorem read_utc_localtime_bug :
    ∃ rd : LMReading, (lightmeterRead envEast).1 = some rd ∧
      rd.unix = 100 ∧ rd.unix = ⌊envEast.now⌋ ∧ rd.utc = 3700 ∧ rd.utc ≠ rd.unix := by
  have hl : luxFromDaysensor 50 30 = some (3.99 : ℝ) := by
    unfold luxFromDaysensor
    norm_num
  have hres : readLightTr [100, 0, 5, 50, 0, 30, 0] =
      (some ⟨100, 3.99, true⟩, [LMEvent.cmdLight, LMEvent.calibrate]) := by
    unfold readLightTr
    norm_num [rangeFactors, List.getD, hl]
  have ht : readTemperatureFrame envEast.tempResp = some 16 := by
    norm_num [readTemperatureFrame, readTemperature, envEast, List.getD]
  have hint : pyInt envEast.now = 100 := by
    have h0 : (0 : ℚ) ≤ envEast.now := by norm_num [envEast]
    rw [pyInt, if_pos h0, show envEast.now = (100.5 : ℚ) from rfl, Int.floor_eq_iff] <;>
      norm_num
  have hread : lightmeterRead envEast =
      (some ⟨fromtimestamp 100 envEast.tz, 100, 100, 3.99, 16, true⟩,
       LMEvent.captureTime ::
         [LMEvent.cmdLight, LMEvent.calibrate] ++ [LMEvent.cmdTemp]) := by
    unfold lightmeterRead
    rw [show envEast.lightResp = [100, 0, 5, 50, 0, 30, 0] from rfl, hres, ht, hint]
  refine ⟨⟨3700, 100, 100, 3.99, 16, true⟩, ?_, rfl, ?_, rfl, by decide⟩
  · rw [hread]
    rfl
  · show (100 : ℤ) = ⌊envEast.now⌋
    rw [show envEast.now = (100.5 : ℚ) from rfl]
    symm
    rw [Int.floor_eq_iff] <;> norm_num

set_option maxRecDepth 40000 in
/-- C9: on an empty reading stream the table converter's output is
exactly the schema preamble immediately followed by the closing of the
empty data array: the document ends with `"data": [`, a newline and
`]}` (plus the closing print's line terminator), and the finalize step
appends that closing exactly once on every terminating run, whatever
the record count. -/
theorem table_empty_stream :
    tableOutput [] = jsonSchemaHeader ++ ('\n' :: ']' :: '\x7d' :: ['\n']) ∧
    ("\"data\": [\n]\x7d\n").toList <:+ tableOutput [] ∧
    ∀ lines : List (List Char), tableOutput lines =
      jsonSchemaHeader ++ tableBody lines false ++ ('\n' :: ']' :: '\x7d' :: ['\n']) := by
  refine ⟨rfl, ⟨jsonSchemaHeader.take 770, ?_⟩, fun _ => rfl⟩
  rfl

/-! ## String replacement lemmas for the converter -/

theorem replaceFuel_nil (p r : List Char) : ∀ n, replaceFuel n p r [] = [] := by
  intro n
  cases n with
  | zero => rfl
  | succ n =>
    rw [replaceFuel]
    by_cases hp : p = []
    · rw [if_pos hp]
    · rw [if_neg hp, if_neg (fun hm => hp (List.prefix_nil.mp hm))]

theorem length_pos_of_ne_nil {p : List Char} (hp : p ≠ []) : 1 ≤ p.length := by
  cases p with
  | nil => exact absurd rfl hp
  | cons a q => simp

theorem replaceFuel_eq_of_le (p r : List Char) :
    ∀ n m s, s.length ≤ n → s.length ≤ m →
      replaceFuel n p r s = replaceFuel m p r s := by
  intro n
  induction n with
  | zero =>
    intro m s hn _
    have hs : s = [] := List.length_eq_zero.mp (Nat.le_zero.mp hn)
    subst hs
    rw [replaceFuel_nil, replaceFuel_nil]
  | succ n ih =>
    intro m s hn hm
    cases s with
    | nil => rw [replaceFuel_nil, replaceFuel_nil]
    | cons c t =>
      cases m with
      | zero => simp at hm
      | succ m' =>
        rw [replaceFuel, replaceFuel]
        by_cases hp : p = []
        · rw [if_pos hp, if_pos hp]
        · rw [if_neg hp, if_neg hp]
          by_cases hpre : p <+: c :: t
          · rw [if_pos hpre, if_pos hpre]
            have hplen := length_pos_of_ne_nil hp
            congr 1
            apply ih
            · simp only [List.length_drop, List.length_cons]
              simp only [List.length_cons] at hn
              omega
            · simp only [List.length_drop, List.length_cons]
              simp only [List.length_cons] at hm
              omega
          · rw [if_neg hpre, if_neg hpre]
            simp only [List.cons.injEq, true_and]
            apply ih
            · simp only [List.length_cons] at hn
              omega
            · simp only [List.length_cons] at hm
              omega

theorem replaceL_nil (p r : List Char) : replaceL p r [] = [] := rfl

theorem replaceL_pos (p r s : List Char) (hp : p ≠ []) (hm : p <+: s) :
    replaceL p r s = r ++ replaceL p r (s.drop p.length) := by
  cases s with
  | nil => exact absurd (List.prefix_nil.mp hm) hp
  | cons c t =>
    show replaceFuel (t.length + 1) p r (c :: t) = _
    rw [replaceFuel, if_neg hp, if_pos hm]
    congr 1
    apply replaceFuel_eq_of_le
    · have hplen := length_pos_of_ne_nil hp
      simp only [List.length_drop, List.length_cons]
      omega
    · exact le_refl _

theorem replaceL_neg (p r : List Char) (c : Char) (t : List Char)
    (hp : p ≠ []) (hm : ¬ p <+: (c :: t)) :
    replaceL p r (c :: t) = c :: replaceL p r t := by
  show replaceFuel (t.length + 1) p r (c :: t) = _
  rw [replaceFuel, if_neg hp, if_neg hm]
  rfl

theorem replaceL_no_occ (p r : List Char) (hp : p ≠ []) :
    ∀ s, ¬ p <:+: s → replaceL p r s = s := by
  intro s
  induction s with
  | nil => intro _; rfl
  | cons c t ih =>
    intro h
    have hm : ¬ p <+: c :: t := fun hpre => h hpre.isInfix
    rw [replaceL_neg p r c t hp hm, ih (fun hi => h (List.infix_cons hi))]

theorem replaceL_split_head (p r : List Char) (hp : p ≠ []) (c : Char) (hc : c ∉ p) :
    ∀ n x y, x.length ≤ n →
      replaceL p r (x ++ c :: y) = replaceL p r x ++ replaceL p r (c :: y) := by
  intro n
  induction n with
  | zero =>
    intro x y hx
    have hx0 : x = [] := List.length_eq_zero.mp (Nat.le_zero.mp hx)
    subst hx0
    rw [List.nil_append, replaceL_nil, List.nil_append]
  | succ n ih =>
    intro x y hx
    by_cases hpre : p <+: x ++ c :: y
    · have hxclen : ¬ x.length < p.length := by
        intro hlt
        have hxc : x ++ [c] <+: x ++ c :: y := ⟨y, by simp⟩
        have hle : (x ++ [c]).length ≤ p.length := by
          simp only [List.length_append, List.length_cons, List.length_nil]
          omega
        have hsub : x ++ [c] <+: p := List.prefix_of_prefix_length_le hxc hpre hle
        exact hc (hsub.subset (by simp))
      push_neg at hxclen
      have hpx : p <+: x :=
        List.prefix_of_prefix_length_le hpre (List.prefix_append x (c :: y)) hxclen
      have hplen := length_pos_of_ne_nil hp
      rw [replaceL_pos p r _ hp hpre, replaceL_pos p r x hp hpx,
          List.drop_append_of_le_length hxclen,
          ih (x.drop p.length) y (by simp only [List.length_drop]; omega),
          List.append_assoc]
    · cases x with
      | nil => rw [List.nil_append, replaceL_nil, List.nil_append]
      | cons a t =>
        have h1 : ¬ p <+: a :: (t ++ c :: y) := hpre
        have h2 : ¬ p <+: a :: t := fun hq => hpre (hq.trans (List.prefix_append _ _))
        rw [show (a :: t) ++ c :: y = a :: (t ++ c :: y) from rfl,
            replaceL_neg p r a _ hp h1, replaceL_neg p r a t hp h2,
            ih t y (by simp only [List.length_cons] at hx; omega)]
        rfl

theorem not_prefix_cons_of_not_mem (p : List Char) (hp : p ≠ []) (c : Char) (hc : c ∉ p)
    (y : List Char) : ¬ p <+: c :: y := by
  intro hq
  cases p with
  | nil => exact hp rfl
  | cons a q =>
    obtain ⟨t, ht⟩ := hq
    rw [List.cons_append] at ht
    injection ht with h1 _
    exact hc (h1 ▸ List.mem_cons_self a q)

theorem replaceL_split_last (p r : List Char) (hp : p ≠ []) (c : Char) (hc : c ∉ p) :
    ∀ n x y, x.length ≤ n →
      replaceL p r (x ++ c :: y) = replaceL p r (x ++ [c]) ++ replaceL p r y := by
  intro n
  induction n with
  | zero =>
    intro x y hx
    have hx0 : x = [] := List.length_eq_zero.mp (Nat.le_zero.mp hx)
    subst hx0
    rw [List.nil_append, List.nil_append,
        replaceL_neg p r c y hp (not_prefix_cons_of_not_mem p hp c hc y),
        replaceL_neg p r c [] hp (not_prefix_cons_of_not_mem p hp c hc []),
        replaceL_nil]
    rfl
  | succ n ih =>
    intro x y hx
    by_cases hpre : p <+: x ++ c :: y
    · have hxclen : ¬ x.length < p.length := by
        intro hlt
        have hxc : x ++ [c] <+: x ++ c :: y := ⟨y, by simp⟩
        have hle : (x ++ [c]).length ≤ p.length := by
          simp only [List.length_append, List.length_cons, List.length_nil]
          omega
        have hsub : x ++ [c] <+: p := List.prefix_of_prefix_length_le hxc hpre hle
        exact hc (hsub.subset (by simp))
      push_neg at hxclen
      have hpxc : p <+: x ++ [c] :=
        List.prefix_of_prefix_length_le hpre ⟨y, by simp⟩
          (by simp only [List.length_append, List.length_cons, List.length_nil]; omega)
      have hplen := length_pos_of_ne_nil hp
      rw [replaceL_pos p r _ hp hpre, replaceL_pos p r (x ++ [c]) hp hpxc,
          List.drop_append_of_le_length hxclen,
          List.drop_append_of_le_length hxclen,
          ih (x.drop p.length) y (by simp only [List.length_drop]; omega),
          List.append_assoc]
    · cases x with
      | nil =>
        rw [List.nil_append] at hpre
        rw [List.nil_append, List.nil_append,
            replaceL_neg p r c y hp hpre,
            replaceL_neg p r c [] hp (not_prefix_cons_of_not_mem p hp c hc []),
            replaceL_nil]
        rfl
      | cons a t =>
        have h1 : ¬ p <+: a :: (t ++ c :: y) := hpre
        have h2 : ¬ p <+: a :: (t ++ [c]) := by
          intro hq
          apply hpre
          have h3 := hq.trans (List.prefix_append (a :: (t ++ [c])) y)
          rwa [show (a :: (t ++ [c])) ++ y = (a :: t) ++ c :: y by simp] at h3
        rw [show (a :: t) ++ c :: y = a :: (t ++ c :: y) from rfl,
            show (a :: t) ++ [c] = a :: (t ++ [c]) from rfl,
            replaceL_neg p r a _ hp h1, replaceL_neg p r a _ hp h2,
            ih t y (by simp only [List.length_cons] at hx; omega)]
        rfl

theorem replaceL_cut_keep (p r : List Char) (hp : p ≠ []) (c : Char) (hc : c ∉ p)
    (x y : List Char) (hx : ¬ p <:+: x) :
    replaceL p r (x ++ c :: y) = x ++ replaceL p r (c :: y) := by
  rw [replaceL_split_head p r hp c hc x.length x y (le_refl _),
      replaceL_no_occ p r hp x hx]

theorem replaceL_cut_seg (p r : List Char) (hp : p ≠ []) (c : Char) (hc : c ∉ p)
    (x y : List Char) :
    replaceL p r (x ++ c :: y) = replaceL p r (x ++ [c]) ++ replaceL p r y :=
  replaceL_split_last p r hp c hc x.length x y (le_refl _)

theorem replaceL_json_skeleton (p r : List Char) (hp : p ≠ [])
    (hq : '"' ∉ p) (hsp : ' ' ∉ p) (hcm : ',' ∉ p)
    (A1 A2m A3m A4m A5t V1 V2 V3 V4 : List Char)
    (hV1 : ¬ p <:+: V1) (hV2 : ¬ p <:+: V2) (hV3 : ¬ p <:+: V3) (hV4 : ¬ p <:+: V4) :
    replaceL p r
      (A1 ++ '"' :: (V1 ++ '"' :: (A2m ++ ' ' :: (V2 ++ ',' ::
        (A3m ++ ' ' :: (V3 ++ ',' :: (A4m ++ ' ' :: (V4 ++ ',' :: A5t)))))))) =
    replaceL p r (A1 ++ ['"']) ++ (V1 ++ (replaceL p r (('"' :: A2m) ++ [' ']) ++
      (V2 ++ (replaceL p r ((',' :: A3m) ++ [' ']) ++ (V3 ++
        (replaceL p r ((',' :: A4m) ++ [' ']) ++ (V4 ++ replaceL p r (',' :: A5t)))))))) := by
  calc
    replaceL p r
        (A1 ++ '"' :: (V1 ++ '"' :: (A2m ++ ' ' :: (V2 ++ ',' ::
          (A3m ++ ' ' :: (V3 ++ ',' :: (A4m ++ ' ' :: (V4 ++ ',' :: A5t)))))))) =
        replaceL p r (A1 ++ ['"']) ++
          replaceL p r (V1 ++ '"' :: (A2m ++ ' ' :: (V2 ++ ',' ::
            (A3m ++ ' ' :: (V3 ++ ',' :: (A4m ++ ' ' :: (V4 ++ ',' :: A5t))))))) :=
      replaceL_cut_seg p r hp '"' hq A1 _
    _ = replaceL p r (A1 ++ ['"']) ++
          (V1 ++ replaceL p r ('"' :: (A2m ++ ' ' :: (V2 ++ ',' ::
            (A3m ++ ' ' :: (V3 ++ ',' :: (A4m ++ ' ' :: (V4 ++ ',' :: A5t)))))))) :=
      congrArg _ (replaceL_cut_keep p r hp '"' hq V1 _ hV1)
    _ = replaceL p r (A1 ++ ['"']) ++
          (V1 ++ (replaceL p r (('"' :: A2m) ++ [' ']) ++
            replaceL p r (V2 ++ ',' ::
              (A3m ++ ' ' :: (V3 ++ ',' :: (A4m ++ ' ' :: (V4 ++ ',' :: A5t))))))) :=
      congrArg _ (congrArg _
        (replaceL_cut_seg p r hp ' ' hsp ('"' :: A2m) _))
    _ = replaceL p r (A1 ++ ['"']) ++
          (V1 ++ (replaceL p r (('"' :: A2m) ++ [' ']) ++
            (V2 ++ replaceL p r (',' ::
              (A3m ++ ' ' :: (V3 ++ ',' :: (A4m ++ ' ' :: (V4 ++ ',' :: A5t)))))))) :=
      congrArg _ (congrArg _ (congrArg _
        (replaceL_cut_keep p r hp ',' hcm V2 _ hV2)))
    _ = replaceL p r (A1 ++ ['"']) ++
          (V1 ++ (replaceL p r (('"' :: A2m) ++ [' ']) ++
            (V2 ++ (replaceL p r ((',' :: A3m) ++ [' ']) ++
              replaceL p r (V3 ++ ',' :: (A4m ++ ' ' :: (V4 ++ ',' :: A5t))))))) :=
      congrArg _ (congrArg _ (congrArg _ (congrArg _
        (replaceL_cut_seg p r hp ' ' hsp (',' :: A3m) _))))
    _ = replaceL p r (A1 ++ ['"']) ++
          (V1 ++ (replaceL p r (('"' :: A2m) ++ [' ']) ++
            (V2 ++ (replaceL p r ((',' :: A3m) ++ [' ']) ++
              (V3 ++ replaceL p r (',' :: (A4m ++ ' ' :: (V4 ++ ',' :: A5t)))))))) :=
      congrArg _ (congrArg _ (congrArg _ (congrArg _ (congrArg _
        (replaceL_cut_keep p r hp ',' hcm V3 _ hV3)))))
    _ = replaceL p r (A1 ++ ['"']) ++
          (V1 ++ (replaceL p r (('"' :: A2m) ++ [' ']) ++
            (V2 ++ (replaceL p r ((',' :: A3m) ++ [' ']) ++
              (V3 ++ (replaceL p r ((',' :: A4m) ++ [' ']) ++
                replaceL p r (V4 ++ ',' :: A5t))))))) :=
      congrArg _ (congrArg _ (congrArg _ (congrArg _ (congrArg _ (congrArg _
        (replaceL_cut_seg p r hp ' ' hsp (',' :: A4m) _))))))
    _ = replaceL p r (A1 ++ ['"']) ++
          (V1 ++ (replaceL p r (('"' :: A2m) ++ [' ']) ++
            (V2 ++ (replaceL p r ((',' :: A3m) ++ [' ']) ++
              (V3 ++ (replaceL p r ((',' :: A4m) ++ [' ']) ++
                (V4 ++ replaceL p r (',' :: A5t)))))))) :=
      congrArg _ (congrArg _ (congrArg _ (congrArg _ (congrArg _ (congrArg _ (congrArg _
        (replaceL_cut_keep p r hp ',' hcm V4 _ hV4)))))))

example (ISO TT LL DD : List Char)
    (hV1 : ¬ ['u','t','c'] <:+: ISO) (hV2 : ¬ ['u','t','c'] <:+: TT)
    (hV3 : ¬ ['u','t','c'] <:+: LL) (hV4 : ¬ ['u','t','c'] <:+: DD) :
    replaceL ['u', 't', 'c'] ['T', 'S']
      (['\x7b', '"', 'u', 't', 'c', '"', ':', ' '] ++ '"' ::
        (ISO ++ '"' ::
          ([',', ' ', '"', 't', 'e', 'm', 'p', 'e', 'r', 'a', 't', 'u', 'r', 'e', '"', ':'] ++ ' ' ::
            (TT ++ ',' ::
              ([' ', '"', 'l', 'i', 'g', 'h', 't', 'l', 'e', 'v', 'e', 'l', '"', ':'] ++ ' ' ::
                (LL ++ ',' ::
                  ([' ', '"', 'd', 'a', 'y', 'l', 'i', 'g', 'h', 't', '"', ':'] ++ ' ' ::
                    (DD ++ ',' ::
                      ([' ', '"', 's', 't', 'a', 't', 'u', 's', '"', ':', ' ',
                        't', 'r', 'u', 'e', '\x7d', '\n']))))))))) =
      ['\x7b', '"', 'T', 'S', '"', ':', ' '] ++ '"' ::
        (ISO ++ '"' ::
          ([',', ' ', '"', 't', 'e', 'm', 'p', 'e', 'r', 'a', 't', 'u', 'r', 'e', '"', ':'] ++ ' ' ::
            (TT ++ ',' ::
              ([' ', '"', 'l', 'i', 'g', 'h', 't', 'l', 'e', 'v', 'e', 'l', '"', ':'] ++ ' ' ::
                (LL ++ ',' ::
                  ([' ', '"', 'd', 'a', 'y', 'l', 'i', 'g', 'h', 't', '"', ':'] ++ ' ' ::
                    (DD ++ ',' ::
                      ([' ', '"', 's', 't', 'a', 't', 'u', 's', '"', ':', ' ',
                        't', 'r', 'u', 'e', '\x7d', '\n'])))))))) :=
  replaceL_json_skeleton ['u', 't', 'c'] ['T', 'S'] (by decide) (by decide) (by decide) (by decide)
    ['\x7b', '"', 'u', 't', 'c', '"', ':', ' ']
    [',', ' ', '"', 't', 'e', 'm', 'p', 'e', 'r', 'a', 't', 'u', 'r', 'e', '"', ':']
    [' ', '"', 'l', 'i', 'g', 'h', 't', 'l', 'e', 'v', 'e', 'l', '"', ':']
    [' ', '"', 'd', 'a', 'y', 'l', 'i', 'g', 'h', 't', '"', ':']
    [' ', '"', 's', 't', 'a', 't', 'u', 's', '"', ':', ' ', 't', 'r', 'u', 'e', '\x7d', '\n']
    ISO TT LL DD hV1 hV2 hV3 hV4


theorem pyRstrip_close (Y : List Char) : pyRstrip (Y ++ ['\x7d', '\n']) = Y ++ ['\x7d'] := by
  unfold pyRstrip
  rw [List.reverse_append]
  show List.reverse (List.dropWhile Char.isWhitespace ('\n' :: '\x7d' :: Y.reverse)) = _
  rw [List.dropWhile_cons_of_pos (by decide), List.dropWhile_cons_of_neg (by decide),
      List.reverse_cons, List.reverse_reverse]

/-- C8: formatting a Reading in the `jsonLinesLong` mode and then
applying the companion converter's long-to-short field renaming
(triggered by detecting the literal substring `lightlevel`) yields
exactly the same line as formatting the same Reading directly in the
abbreviated `jsonLines` mode.  Stated for rendered field values free of
the five long field names, which holds for the ISO timestamp, decimal
and boolean renderings the program produces. -/
theorem json_long_short_roundtrip (r : RenderedReading)
    (hU : noLongName r.utcIso) (hT : noLongName r.temperatureStr)
    (hL : noLongName r.lightlevelStr) (hD : noLongName r.daylightStr) :
    convertLine (jsonLine false r ++ ['\n']) = jsonLine true r := by
  obtain ⟨ISO, TT, LL, DD, st⟩ := r
  simp only [noLongName] at hU hT hL hD
  cases st
  case false =>
    have hline : jsonLine false ⟨ISO, TT, LL, DD, false⟩ ++ ['\n'] =
        ['\x7b', '\"', 'u', 't', 'c', '\"', ':', ' '] ++ '\"' ::
          (ISO ++ '\"' ::
            ([',', ' ', '\"', 't', 'e', 'm', 'p', 'e', 'r', 'a', 't', 'u', 'r', 'e', '\"', ':'] ++ ' ' ::
              (TT ++ ',' ::
                ([' ', '\"', 'l', 'i', 'g', 'h', 't', 'l', 'e', 'v', 'e', 'l', '\"', ':'] ++ ' ' ::
                  (LL ++ ',' ::
                    ([' ', '\"', 'd', 'a', 'y', 'l', 'i', 'g', 'h', 't', '\"', ':'] ++ ' ' ::
                      (DD ++ ',' ::
                        ([' ', '\"', 's', 't', 'a', 't', 'u', 's', '\"', ':', ' ', 'f', 'a', 'l', 's', 'e', '\x7d', '\n'])))))))) := by
      simp [jsonLine, jsonValueStrs, jsonEntry, longNamesL, shortNamesL,
        List.intercalate, List.intersperse]
    have htrig : ['l','i','g','h','t','l','e','v','e','l'] <:+:
        (['\x7b', '\"', 'u', 't', 'c', '\"', ':', ' '] ++ '\"' ::
          (ISO ++ '\"' ::
            ([',', ' ', '\"', 't', 'e', 'm', 'p', 'e', 'r', 'a', 't', 'u', 'r', 'e', '\"', ':'] ++ ' ' ::
              (TT ++ ',' ::
                ([' ', '\"', 'l', 'i', 'g', 'h', 't', 'l', 'e', 'v', 'e', 'l', '\"', ':'] ++ ' ' ::
                  (LL ++ ',' ::
                    ([' ', '\"', 'd', 'a', 'y', 'l', 'i', 'g', 'h', 't', '\"', ':'] ++ ' ' ::
                      (DD ++ ',' ::
                        ([' ', '\"', 's', 't', 'a', 't', 'u', 's', '\"', ':', ' ', 'f', 'a', 'l', 's', 'e', '\x7d', '\n']))))))))) := by
      refine ⟨['\x7b', '\"', 'u', 't', 'c', '\"', ':', ' '] ++ '\"' :: (ISO ++ '\"' :: ([',', ' ', '\"', 't', 'e', 'm', 'p', 'e', 'r', 'a', 't', 'u', 'r', 'e', '\"', ':'] ++ ' ' :: (TT ++ [',', ' ', '\"']))),
        ['\"', ':'] ++ ' ' :: (LL ++ ',' :: ([' ', '\"', 'd', 'a', 'y', 'l', 'i', 'g', 'h', 't', '\"', ':'] ++ ' ' :: (DD ++ ',' :: [' ', '\"', 's', 't', 'a', 't', 'u', 's', '\"', ':', ' ', 'f', 'a', 'l', 's', 'e', '\x7d', '\n']))), ?_⟩
      simp [List.append_assoc]
    have hstep1 : replaceL ['u', 't', 'c'] ['T', 'S']
        (['\x7b', '\"', 'u', 't', 'c', '\"', ':', ' '] ++ '\"' ::
          (ISO ++ '\"' ::
            ([',', ' ', '\"', 't', 'e', 'm', 'p', 'e', 'r', 'a', 't', 'u', 'r', 'e', '\"', ':'] ++ ' ' ::
              (TT ++ ',' ::
                ([' ', '\"', 'l', 'i', 'g', 'h', 't', 'l', 'e', 'v', 'e', 'l', '\"', ':'] ++ ' ' ::
                  (LL ++ ',' ::
                    ([' ', '\"', 'd', 'a', 'y', 'l', 'i', 'g', 'h', 't', '\"', ':'] ++ ' ' ::
                      (DD ++ ',' ::
                        ([' ', '\"', 's', 't', 'a', 't', 'u', 's', '\"', ':', ' ', 'f', 'a', 'l', 's', 'e', '\x7d', '\n']))))))))) =
        ['\x7b', '\"', 'T', 'S', '\"', ':', ' '] ++ '\"' ::
          (ISO ++ '\"' ::
            ([',', ' ', '\"', 't', 'e', 'm', 'p', 'e', 'r', 'a', 't', 'u', 'r', 'e', '\"', ':'] ++ ' ' ::
              (TT ++ ',' ::
                ([' ', '\"', 'l', 'i', 'g', 'h', 't', 'l', 'e', 'v', 'e', 'l', '\"', ':'] ++ ' ' ::
                  (LL ++ ',' ::
                    ([' ', '\"', 'd', 'a', 'y', 'l', 'i', 'g', 'h', 't', '\"', ':'] ++ ' ' ::
                      (DD ++ ',' ::
                        ([' ', '\"', 's', 't', 'a', 't', 'u', 's', '\"', ':', ' ', 'f', 'a', 'l', 's', 'e', '\x7d', '\n'])))))))) :=
      replaceL_json_skeleton ['u', 't', 'c'] ['T', 'S']
        (by decide) (by decide) (by decide) (by decide)
        ['\x7b', '\"', 'u', 't', 'c', '\"', ':', ' ']
        [',', ' ', '\"', 't', 'e', 'm', 'p', 'e', 'r', 'a', 't', 'u', 'r', 'e', '\"', ':']
        [' ', '\"', 'l', 'i', 'g', 'h', 't', 'l', 'e', 'v', 'e', 'l', '\"', ':']
        [' ', '\"', 'd', 'a', 'y', 'l', 'i', 'g', 'h', 't', '\"', ':']
        [' ', '\"', 's', 't', 'a', 't', 'u', 's', '\"', ':', ' ', 'f', 'a', 'l', 's', 'e', '\x7d', '\n']
        ISO TT LL DD
        (hU ['u', 't', 'c'] (by decide)) (hT ['u', 't', 'c'] (by decide))
        (hL ['u', 't', 'c'] (by decide)) (hD ['u', 't', 'c'] (by decide))
    have hstep2 : replaceL ['t', 'e', 'm', 'p', 'e', 'r', 'a', 't', 'u', 'r', 'e'] ['T']
        (['\x7b', '\"', 'T', 'S', '\"', ':', ' '] ++ '\"' ::
          (ISO ++ '\"' ::
            ([',', ' ', '\"', 't', 'e', 'm', 'p', 'e', 'r', 'a', 't', 'u', 'r', 'e', '\"', ':'] ++ ' ' ::
              (TT ++ ',' ::
                ([' ', '\"', 'l', 'i', 'g', 'h', 't', 'l', 'e', 'v', 'e', 'l', '\"', ':'] ++ ' ' ::
                  (LL ++ ',' ::
                    ([' ', '\"', 'd', 'a', 'y', 'l', 'i', 'g', 'h', 't', '\"', ':'] ++ ' ' ::
                      (DD ++ ',' ::
                        ([' ', '\"', 's', 't', 'a', 't', 'u', 's', '\"', ':', ' ', 'f', 'a', 'l', 's', 'e', '\x7d', '\n']))))))))) =
        ['\x7b', '\"', 'T', 'S', '\"', ':', ' '] ++ '\"' ::
          (ISO ++ '\"' ::
            ([',', ' ', '\"', 'T', '\"', ':'] ++ ' ' ::
              (TT ++ ',' ::
                ([' ', '\"', 'l', 'i', 'g', 'h', 't', 'l', 'e', 'v', 'e', 'l', '\"', ':'] ++ ' ' ::
                  (LL ++ ',' ::
                    ([' ', '\"', 'd', 'a', 'y', 'l', 'i', 'g', 'h', 't', '\"', ':'] ++ ' ' ::
                      (DD ++ ',' ::
                        ([' ', '\"', 's', 't', 'a', 't', 'u', 's', '\"', ':', ' ', 'f', 'a', 'l', 's', 'e', '\x7d', '\n'])))))))) :=
      replaceL_json_skeleton ['t', 'e', 'm', 'p', 'e', 'r', 'a', 't', 'u', 'r', 'e'] ['T']
        (by decide) (by decide) (by decide) (by decide)
        ['\x7b', '\"', 'T', 'S', '\"', ':', ' ']
        [',', ' ', '\"', 't', 'e', 'm', 'p', 'e', 'r', 'a', 't', 'u', 'r', 'e', '\"', ':']
        [' ', '\"', 'l', 'i', 'g', 'h', 't', 'l', 'e', 'v', 'e', 'l', '\"', ':']
        [' ', '\"', 'd', 'a', 'y', 'l', 'i', 'g', 'h', 't', '\"', ':']
        [' ', '\"', 's', 't', 'a', 't', 'u', 's', '\"', ':', ' ', 'f', 'a', 'l', 's', 'e', '\x7d', '\n']
        ISO TT LL DD
        (hU ['t', 'e', 'm', 'p', 'e', 'r', 'a', 't', 'u', 'r', 'e'] (by decide)) (hT ['t', 'e', 'm', 'p', 'e', 'r', 'a', 't', 'u', 'r', 'e'] (by decide))
        (hL ['t', 'e', 'm', 'p', 'e', 'r', 'a', 't', 'u', 'r', 'e'] (by decide)) (hD ['t', 'e', 'm', 'p', 'e', 'r', 'a', 't', 'u', 'r', 'e'] (by decide))
    have hstep3 : replaceL ['l', 'i', 'g', 'h', 't', 'l', 'e', 'v', 'e', 'l'] ['L']
        (['\x7b', '\"', 'T', 'S', '\"', ':', ' '] ++ '\"' ::
          (ISO ++ '\"' ::
            ([',', ' ', '\"', 'T', '\"', ':'] ++ ' ' ::
              (TT ++ ',' ::
                ([' ', '\"', 'l', 'i', 'g', 'h', 't', 'l', 'e', 'v', 'e', 'l', '\"', ':'] ++ ' ' ::
                  (LL ++ ',' ::
                    ([' ', '\"', 'd', 'a', 'y', 'l', 'i', 'g', 'h', 't', '\"', ':'] ++ ' ' ::
                      (DD ++ ',' ::
                        ([' ', '\"', 's', 't', 'a', 't', 'u', 's', '\"', ':', ' ', 'f', 'a', 'l', 's', 'e', '\x7d', '\n']))))))))) =
        ['\x7b', '\"', 'T', 'S', '\"', ':', ' '] ++ '\"' ::
          (ISO ++ '\"' ::
            ([',', ' ', '\"', 'T', '\"', ':'] ++ ' ' ::
              (TT ++ ',' ::
                ([' ', '\"', 'L', '\"', ':'] ++ ' ' ::
                  (LL ++ ',' ::
                    ([' ', '\"', 'd', 'a', 'y', 'l', 'i', 'g', 'h', 't', '\"', ':'] ++ ' ' ::
                      (DD ++ ',' ::
                        ([' ', '\"', 's', 't', 'a', 't', 'u', 's', '\"', ':', ' ', 'f', 'a', 'l', 's', 'e', '\x7d', '\n'])))))))) :=
      replaceL_json_skeleton ['l', 'i', 'g', 'h', 't', 'l', 'e', 'v', 'e', 'l'] ['L']
        (by decide) (by decide) (by decide) (by decide)
        ['\x7b', '\"', 'T', 'S', '\"', ':', ' ']
        [',', ' ', '\"', 'T', '\"', ':']
        [' ', '\"', 'l', 'i', 'g', 'h', 't', 'l', 'e', 'v', 'e', 'l', '\"', ':']
        [' ', '\"', 'd', 'a', 'y', 'l', 'i', 'g', 'h', 't', '\"', ':']
        [' ', '\"', 's', 't', 'a', 't', 'u', 's', '\"', ':', ' ', 'f', 'a', 'l', 's', 'e', '\x7d', '\n']
        ISO TT LL DD
        (hU ['l', 'i', 'g', 'h', 't', 'l', 'e', 'v', 'e', 'l'] (by decide)) (hT ['l', 'i', 'g', 'h', 't', 'l', 'e', 'v', 'e', 'l'] (by decide))
        (hL ['l', 'i', 'g', 'h', 't', 'l', 'e', 'v', 'e', 'l'] (by decide)) (hD ['l', 'i', 'g', 'h', 't', 'l', 'e', 'v', 'e', 'l'] (by decide))
    have hstep4 : replaceL ['d', 'a', 'y', 'l', 'i', 'g', 'h', 't'] ['D']
        (['\x7b', '\"', 'T', 'S', '\"', ':', ' '] ++ '\"' ::
          (ISO ++ '\"' ::
            ([',', ' ', '\"', 'T', '\"', ':'] ++ ' ' ::
              (TT ++ ',' ::
                ([' ', '\"', 'L', '\"', ':'] ++ ' ' ::
                  (LL ++ ',' ::
                    ([' ', '\"', 'd', 'a', 'y', 'l', 'i', 'g', 'h', 't', '\"', ':'] ++ ' ' ::
                      (DD ++ ',' ::
                        ([' ', '\"', 's', 't', 'a', 't', 'u', 's', '\"', ':', ' ', 'f', 'a', 'l', 's', 'e', '\x7d', '\n']))))))))) =
        ['\x7b', '\"', 'T', 'S', '\"', ':', ' '] ++ '\"' ::
          (ISO ++ '\"' ::
            ([',', ' ', '\"', 'T', '\"', ':'] ++ ' ' ::
              (TT ++ ',' ::
                ([' ', '\"', 'L', '\"', ':'] ++ ' ' ::
                  (LL ++ ',' ::
                    ([' ', '\"', 'D', '\"', ':'] ++ ' ' ::
                      (DD ++ ',' ::
                        ([' ', '\"', 's', 't', 'a', 't', 'u', 's', '\"', ':', ' ', 'f', 'a', 'l', 's', 'e', '\x7d', '\n'])))))))) :=
      replaceL_json_skeleton ['d', 'a', 'y', 'l', 'i', 'g', 'h', 't'] ['D']
        (by decide) (by decide) (by decide) (by decide)
        ['\x7b', '\"', 'T', 'S', '\"', ':', ' ']
        [',', ' ', '\"', 'T', '\"', ':']
        [' ', '\"', 'L', '\"', ':']
        [' ', '\"', 'd', 'a', 'y', 'l', 'i', 'g', 'h', 't', '\"', ':']
        [' ', '\"', 's', 't', 'a', 't', 'u', 's', '\"', ':', ' ', 'f', 'a', 'l', 's', 'e', '\x7d', '\n']
        ISO TT LL DD
        (hU ['d', 'a', 'y', 'l', 'i', 'g', 'h', 't'] (by decide)) (hT ['d', 'a', 'y', 'l', 'i', 'g', 'h', 't'] (by decide))
        (hL ['d', 'a', 'y', 'l', 'i', 'g', 'h', 't'] (by decide)) (hD ['d', 'a', 'y', 'l', 'i', 'g', 'h', 't'] (by decide))
    have hstep5 : replaceL ['s', 't', 'a', 't', 'u', 's'] ['S']
        (['\x7b', '\"', 'T', 'S', '\"', ':', ' '] ++ '\"' ::
          (ISO ++ '\"' ::
            ([',', ' ', '\"', 'T', '\"', ':'] ++ ' ' ::
              (TT ++ ',' ::
                ([' ', '\"', 'L', '\"', ':'] ++ ' ' ::
                  (LL ++ ',' ::
                    ([' ', '\"', 'D', '\"', ':'] ++ ' ' ::
                      (DD ++ ',' ::
                        ([' ', '\"', 's', 't', 'a', 't', 'u', 's', '\"', ':', ' ', 'f', 'a', 'l', 's', 'e', '\x7d', '\n']))))))))) =
        ['\x7b', '\"', 'T', 'S', '\"', ':', ' '] ++ '\"' ::
          (ISO ++ '\"' ::
            ([',', ' ', '\"', 'T', '\"', ':'] ++ ' ' ::
              (TT ++ ',' ::
                ([' ', '\"', 'L', '\"', ':'] ++ ' ' ::
                  (LL ++ ',' ::
                    ([' ', '\"', 'D', '\"', ':'] ++ ' ' ::
                      (DD ++ ',' ::
                        ([' ', '\"', 'S', '\"', ':', ' ', 'f', 'a', 'l', 's', 'e', '\x7d', '\n'])))))))) :=
      replaceL_json_skeleton ['s', 't', 'a', 't', 'u', 's'] ['S']
        (by decide) (by decide) (by decide) (by decide)
        ['\x7b', '\"', 'T', 'S', '\"', ':', ' ']
        [',', ' ', '\"', 'T', '\"', ':']
        [' ', '\"', 'L', '\"', ':']
        [' ', '\"', 'D', '\"', ':']
        [' ', '\"', 's', 't', 'a', 't', 'u', 's', '\"', ':', ' ', 'f', 'a', 'l', 's', 'e', '\x7d', '\n']
        ISO TT LL DD
        (hU ['s', 't', 'a', 't', 'u', 's'] (by decide)) (hT ['s', 't', 'a', 't', 'u', 's'] (by decide))
        (hL ['s', 't', 'a', 't', 'u', 's'] (by decide)) (hD ['s', 't', 'a', 't', 'u', 's'] (by decide))
    rw [hline]
    unfold convertLine
    rw [if_pos htrig]
    have hfold : renamePairs.foldl (fun l pr => replaceL pr.1 pr.2 l)
        (['\x7b', '\"', 'u', 't', 'c', '\"', ':', ' '] ++ '\"' ::
          (ISO ++ '\"' ::
            ([',', ' ', '\"', 't', 'e', 'm', 'p', 'e', 'r', 'a', 't', 'u', 'r', 'e', '\"', ':'] ++ ' ' ::
              (TT ++ ',' ::
                ([' ', '\"', 'l', 'i', 'g', 'h', 't', 'l', 'e', 'v', 'e', 'l', '\"', ':'] ++ ' ' ::
                  (LL ++ ',' ::
                    ([' ', '\"', 'd', 'a', 'y', 'l', 'i', 'g', 'h', 't', '\"', ':'] ++ ' ' ::
                      (DD ++ ',' ::
                        ([' ', '\"', 's', 't', 'a', 't', 'u', 's', '\"', ':', ' ', 'f', 'a', 'l', 's', 'e', '\x7d', '\n']))))))))) =
        replaceL ['s', 't', 'a', 't', 'u', 's'] ['S'] (replaceL ['d', 'a', 'y', 'l', 'i', 'g', 'h', 't'] ['D']
          (replaceL ['l', 'i', 'g', 'h', 't', 'l', 'e', 'v', 'e', 'l'] ['L'] (replaceL ['t', 'e', 'm', 'p', 'e', 'r', 'a', 't', 'u', 'r', 'e'] ['T']
            (replaceL ['u', 't', 'c'] ['T', 'S']
              (['\x7b', '\"', 'u', 't', 'c', '\"', ':', ' '] ++ '\"' ::
                (ISO ++ '\"' ::
                  ([',', ' ', '\"', 't', 'e', 'm', 'p', 'e', 'r', 'a', 't', 'u', 'r', 'e', '\"', ':'] ++ ' ' ::
                    (TT ++ ',' ::
                      ([' ', '\"', 'l', 'i', 'g', 'h', 't', 'l', 'e', 'v', 'e', 'l', '\"', ':'] ++ ' ' ::
                        (LL ++ ',' ::
                          ([' ', '\"', 'd', 'a', 'y', 'l', 'i', 'g', 'h', 't', '\"', ':'] ++ ' ' ::
                            (DD ++ ',' ::
                              ([' ', '\"', 's', 't', 'a', 't', 'u', 's', '\"', ':', ' ', 'f', 'a', 'l', 's', 'e', '\x7d', '\n']))))))))))))) := rfl
    rw [hfold, hstep1, hstep2, hstep3, hstep4, hstep5]
    have hsplit : (['\x7b', '\"', 'T', 'S', '\"', ':', ' '] ++ '\"' ::
          (ISO ++ '\"' ::
            ([',', ' ', '\"', 'T', '\"', ':'] ++ ' ' ::
              (TT ++ ',' ::
                ([' ', '\"', 'L', '\"', ':'] ++ ' ' ::
                  (LL ++ ',' ::
                    ([' ', '\"', 'D', '\"', ':'] ++ ' ' ::
                      (DD ++ ',' ::
                        ([' ', '\"', 'S', '\"', ':', ' ', 'f', 'a', 'l', 's', 'e', '\x7d', '\n']))))))))) =
        (['\x7b', '\"', 'T', 'S', '\"', ':', ' '] ++ '\"' ::
          (ISO ++ '\"' ::
            ([',', ' ', '\"', 'T', '\"', ':'] ++ ' ' ::
              (TT ++ ',' ::
                ([' ', '\"', 'L', '\"', ':'] ++ ' ' ::
                  (LL ++ ',' ::
                    ([' ', '\"', 'D', '\"', ':'] ++ ' ' ::
                      (DD ++ [',', ' ', '\"', 'S', '\"', ':', ' ', 'f', 'a', 'l', 's', 'e'])))))))) ++ ['\x7d', '\n'] := by
      simp [List.append_assoc]
    rw [hsplit, pyRstrip_close]
    simp [jsonLine, jsonValueStrs, jsonEntry, longNamesL, shortNamesL,
      List.intercalate, List.intersperse, List.append_assoc]
  case true =>
    have hline : jsonLine false ⟨ISO, TT, LL, DD, true⟩ ++ ['\n'] =
        ['\x7b', '\"', 'u', 't', 'c', '\"', ':', ' '] ++ '\"' ::
          (ISO ++ '\"' ::
            ([',', ' ', '\"', 't', 'e', 'm', 'p', 'e', 'r', 'a', 't', 'u', 'r', 'e', '\"', ':'] ++ ' ' ::
              (TT ++ ',' ::
                ([' ', '\"', 'l', 'i', 'g', 'h', 't', 'l', 'e', 'v', 'e', 'l', '\"', ':'] ++ ' ' ::
                  (LL ++ ',' ::
                    ([' ', '\"', 'd', 'a', 'y', 'l', 'i', 'g', 'h', 't', '\"', ':'] ++ ' ' ::
                      (DD ++ ',' ::
                        ([' ', '\"', 's', 't', 'a', 't', 'u', 's', '\"', ':', ' ', 't', 'r', 'u', 'e', '\x7d', '\n'])))))))) := by
      simp [jsonLine, jsonValueStrs, jsonEntry, longNamesL, shortNamesL,
        List.intercalate, List.intersperse]
    have htrig : ['l','i','g','h','t','l','e','v','e','l'] <:+:
        (['\x7b', '\"', 'u', 't', 'c', '\"', ':', ' '] ++ '\"' ::
          (ISO ++ '\"' ::
            ([',', ' ', '\"', 't', 'e', 'm', 'p', 'e', 'r', 'a', 't', 'u', 'r', 'e', '\"', ':'] ++ ' ' ::
              (TT ++ ',' ::
                ([' ', '\"', 'l', 'i', 'g', 'h', 't', 'l', 'e', 'v', 'e', 'l', '\"', ':'] ++ ' ' ::
                  (LL ++ ',' ::
                    ([' ', '\"', 'd', 'a', 'y', 'l', 'i', 'g', 'h', 't', '\"', ':'] ++ ' ' ::
                      (DD ++ ',' ::
                        ([' ', '\"', 's', 't', 'a', 't', 'u', 's', '\"', ':', ' ', 't', 'r', 'u', 'e', '\x7d', '\n']))))))))) := by
      refine ⟨['\x7b', '\"', 'u', 't', 'c', '\"', ':', ' '] ++ '\"' :: (ISO ++ '\"' :: ([',', ' ', '\"', 't', 'e', 'm', 'p', 'e', 'r', 'a', 't', 'u', 'r', 'e', '\"', ':'] ++ ' ' :: (TT ++ [',', ' ', '\"']))),
        ['\"', ':'] ++ ' ' :: (LL ++ ',' :: ([' ', '\"', 'd', 'a', 'y', 'l', 'i', 'g', 'h', 't', '\"', ':'] ++ ' ' :: (DD ++ ',' :: [' ', '\"', 's', 't', 'a', 't', 'u', 's', '\"', ':', ' ', 't', 'r', 'u', 'e', '\x7d', '\n']))), ?_⟩
      simp [List.append_assoc]
    have hstep1 : replaceL ['u', 't', 'c'] ['T', 'S']
        (['\x7b', '\"', 'u', 't', 'c', '\"', ':', ' '] ++ '\"' ::
          (ISO ++ '\"' ::
            ([',', ' ', '\"', 't', 'e', 'm', 'p', 'e', 'r', 'a', 't', 'u', 'r', 'e', '\"', ':'] ++ ' ' ::
              (TT ++ ',' ::
                ([' ', '\"', 'l', 'i', 'g', 'h', 't', 'l', 'e', 'v', 'e', 'l', '\"', ':'] ++ ' ' ::
                  (LL ++ ',' ::
                    ([' ', '\"', 'd', 'a', 'y', 'l', 'i', 'g', 'h', 't', '\"', ':'] ++ ' ' ::
                      (DD ++ ',' ::
                        ([' ', '\"', 's', 't', 'a', 't', 'u', 's', '\"', ':', ' ', 't', 'r', 'u', 'e', '\x7d', '\n']))))))))) =
        ['\x7b', '\"', 'T', 'S', '\"', ':', ' '] ++ '\"' ::
          (ISO ++ '\"' ::
            ([',', ' ', '\"', 't', 'e', 'm', 'p', 'e', 'r', 'a', 't', 'u', 'r', 'e', '\"', ':'] ++ ' ' ::
              (TT ++ ',' ::
                ([' ', '\"', 'l', 'i', 'g', 'h', 't', 'l', 'e', 'v', 'e', 'l', '\"', ':'] ++ ' ' ::
                  (LL ++ ',' ::
                    ([' ', '\"', 'd', 'a', 'y', 'l', 'i', 'g', 'h', 't', '\"', ':'] ++ ' ' ::
                      (DD ++ ',' ::
                        ([' ', '\"', 's', 't', 'a', 't', 'u', 's', '\"', ':', ' ', 't', 'r', 'u', 'e', '\x7d', '\n'])))))))) :=
      replaceL_json_skeleton ['u', 't', 'c'] ['T', 'S']
        (by decide) (by decide) (by decide) (by decide)
        ['\x7b', '\"', 'u', 't', 'c', '\"', ':', ' ']
        [',', ' ', '\"', 't', 'e', 'm', 'p', 'e', 'r', 'a', 't', 'u', 'r', 'e', '\"', ':']
        [' ', '\"', 'l', 'i', 'g', 'h', 't', 'l', 'e', 'v', 'e', 'l', '\"', ':']
        [' ', '\"', 'd', 'a', 'y', 'l', 'i', 'g', 'h', 't', '\"', ':']
        [' ', '\"', 's', 't', 'a', 't', 'u', 's', '\"', ':', ' ', 't', 'r', 'u', 'e', '\x7d', '\n']
        ISO TT LL DD
        (hU ['u', 't', 'c'] (by decide)) (hT ['u', 't', 'c'] (by decide))
        (hL ['u', 't', 'c'] (by decide)) (hD ['u', 't', 'c'] (by decide))
    have hstep2 : replaceL ['t', 'e', 'm', 'p', 'e', 'r', 'a', 't', 'u', 'r', 'e'] ['T']
        (['\x7b', '\"', 'T', 'S', '\"', ':', ' '] ++ '\"' ::
          (ISO ++ '\"' ::
            ([',', ' ', '\"', 't', 'e', 'm', 'p', 'e', 'r', 'a', 't', 'u', 'r', 'e', '\"', ':'] ++ ' ' ::
              (TT ++ ',' ::
                ([' ', '\"', 'l', 'i', 'g', 'h', 't', 'l', 'e', 'v', 'e', 'l', '\"', ':'] ++ ' ' ::
                  (LL ++ ',' ::
                    ([' ', '\"', 'd', 'a', 'y', 'l', 'i', 'g', 'h', 't', '\"', ':'] ++ ' ' ::
                      (DD ++ ',' ::
                        ([' ', '\"', 's', 't', 'a', 't', 'u', 's', '\"', ':', ' ', 't', 'r', 'u', 'e', '\x7d', '\n']))))))))) =
        ['\x7b', '\"', 'T', 'S', '\"', ':', ' '] ++ '\"' ::
          (ISO ++ '\"' ::
            ([',', ' ', '\"', 'T', '\"', ':'] ++ ' ' ::
              (TT ++ ',' ::
                ([' ', '\"', 'l', 'i', 'g', 'h', 't', 'l', 'e', 'v', 'e', 'l', '\"', ':'] ++ ' ' ::
                  (LL ++ ',' ::
                    ([' ', '\"', 'd', 'a', 'y', 'l', 'i', 'g', 'h', 't', '\"', ':'] ++ ' ' ::
                      (DD ++ ',' ::
                        ([' ', '\"', 's', 't', 'a', 't', 'u', 's', '\"', ':', ' ', 't', 'r', 'u', 'e', '\x7d', '\n'])))))))) :=
      replaceL_json_skeleton ['t', 'e', 'm', 'p', 'e', 'r', 'a', 't', 'u', 'r', 'e'] ['T']
        (by decide) (by decide) (by decide) (by decide)
        ['\x7b', '\"', 'T', 'S', '\"', ':', ' ']
        [',', ' ', '\"', 't', 'e', 'm', 'p', 'e', 'r', 'a', 't', 'u', 'r', 'e', '\"', ':']
        [' ', '\"', 'l', 'i', 'g', 'h', 't', 'l', 'e', 'v', 'e', 'l', '\"', ':']
        [' ', '\"', 'd', 'a', 'y', 'l', 'i', 'g', 'h', 't', '\"', ':']
        [' ', '\"', 's', 't', 'a', 't', 'u', 's', '\"', ':', ' ', 't', 'r', 'u', 'e', '\x7d', '\n']
        ISO TT LL DD
        (hU ['t', 'e', 'm', 'p', 'e', 'r', 'a', 't', 'u', 'r', 'e'] (by decide)) (hT ['t', 'e', 'm', 'p', 'e', 'r', 'a', 't', 'u', 'r', 'e'] (by decide))
        (hL ['t', 'e', 'm', 'p', 'e', 'r', 'a', 't', 'u', 'r', 'e'] (by decide)) (hD ['t', 'e', 'm', 'p', 'e', 'r', 'a', 't', 'u', 'r', 'e'] (by decide))
    have hstep3 : replaceL ['l', 'i', 'g', 'h', 't', 'l', 'e', 'v', 'e', 'l'] ['L']
        (['\x7b', '\"', 'T', 'S', '\"', ':', ' '] ++ '\"' ::
          (ISO ++ '\"' ::
            ([',', ' ', '\"', 'T', '\"', ':'] ++ ' ' ::
              (TT ++ ',' ::
                ([' ', '\"', 'l', 'i', 'g', 'h', 't', 'l', 'e', 'v', 'e', 'l', '\"', ':'] ++ ' ' ::
                  (LL ++ ',' ::
                    ([' ', '\"', 'd', 'a', 'y', 'l', 'i', 'g', 'h', 't', '\"', ':'] ++ ' ' ::
                      (DD ++ ',' ::
                        ([' ', '\"', 's', 't', 'a', 't', 'u', 's', '\"', ':', ' ', 't', 'r', 'u', 'e', '\x7d', '\n']))))))))) =
        ['\x7b', '\"', 'T', 'S', '\"', ':', ' '] ++ '\"' ::
          (ISO ++ '\"' ::
            ([',', ' ', '\"', 'T', '\"', ':'] ++ ' ' ::
              (TT ++ ',' ::
                ([' ', '\"', 'L', '\"', ':'] ++ ' ' ::
                  (LL ++ ',' ::
                    ([' ', '\"', 'd', 'a', 'y', 'l', 'i', 'g', 'h', 't', '\"', ':'] ++ ' ' ::
                      (DD ++ ',' ::
                        ([' ', '\"', 's', 't', 'a', 't', 'u', 's', '\"', ':', ' ', 't', 'r', 'u', 'e', '\x7d', '\n'])))))))) :=
      replaceL_json_skeleton ['l', 'i', 'g', 'h', 't', 'l', 'e', 'v', 'e', 'l'] ['L']
        (by decide) (by decide) (by decide) (by decide)
        ['\x7b', '\"', 'T', 'S', '\"', ':', ' ']
        [',', ' ', '\"', 'T', '\"', ':']
        [' ', '\"', 'l', 'i', 'g', 'h', 't', 'l', 'e', 'v', 'e', 'l', '\"', ':']
        [' ', '\"', 'd', 'a', 'y', 'l', 'i', 'g', 'h', 't', '\"', ':']
        [' ', '\"', 's', 't', 'a', 't', 'u', 's', '\"', ':', ' ', 't', 'r', 'u', 'e', '\x7d', '\n']
        ISO TT LL DD
        (hU ['l', 'i', 'g', 'h', 't', 'l', 'e', 'v', 'e', 'l'] (by decide)) (hT ['l', 'i', 'g', 'h', 't', 'l', 'e', 'v', 'e', 'l'] (by decide))
        (hL ['l', 'i', 'g', 'h', 't', 'l', 'e', 'v', 'e', 'l'] (by decide)) (hD ['l', 'i', 'g', 'h', 't', 'l', 'e', 'v', 'e', 'l'] (by decide))
    have hstep4 : replaceL ['d', 'a', 'y', 'l', 'i', 'g', 'h', 't'] ['D']
        (['\x7b', '\"', 'T', 'S', '\"', ':', ' '] ++ '\"' ::
          (ISO ++ '\"' ::
            ([',', ' ', '\"', 'T', '\"', ':'] ++ ' ' ::
              (TT ++ ',' ::
                ([' ', '\"', 'L', '\"', ':'] ++ ' ' ::
                  (LL ++ ',' ::
                    ([' ', '\"', 'd', 'a', 'y', 'l', 'i', 'g', 'h', 't', '\"', ':'] ++ ' ' ::
                      (DD ++ ',' ::
                        ([' ', '\"', 's', 't', 'a', 't', 'u', 's', '\"', ':', ' ', 't', 'r', 'u', 'e', '\x7d', '\n']))))))))) =
        ['\x7b', '\"', 'T', 'S', '\"', ':', ' '] ++ '\"' ::
          (ISO ++ '\"' ::
            ([',', ' ', '\"', 'T', '\"', ':'] ++ ' ' ::
              (TT ++ ',' ::
                ([' ', '\"', 'L', '\"', ':'] ++ ' ' ::
                  (LL ++ ',' ::
                    ([' ', '\"', 'D', '\"', ':'] ++ ' ' ::
                      (DD ++ ',' ::
                        ([' ', '\"', 's', 't', 'a', 't', 'u', 's', '\"', ':', ' ', 't', 'r', 'u', 'e', '\x7d', '\n'])))))))) :=
      replaceL_json_skeleton ['d', 'a', 'y', 'l', 'i', 'g', 'h', 't'] ['D']
        (by decide) (by decide) (by decide) (by decide)
        ['\x7b', '\"', 'T', 'S', '\"', ':', ' ']
        [',', ' ', '\"', 'T', '\"', ':']
        [' ', '\"', 'L', '\"', ':']
        [' ', '\"', 'd', 'a', 'y', 'l', 'i', 'g', 'h', 't', '\"', ':']
        [' ', '\"', 's', 't', 'a', 't', 'u', 's', '\"', ':', ' ', 't', 'r', 'u', 'e', '\x7d', '\n']
        ISO TT LL DD
        (hU ['d', 'a', 'y', 'l', 'i', 'g', 'h', 't'] (by decide)) (hT ['d', 'a', 'y', 'l', 'i', 'g', 'h', 't'] (by decide))
        (hL ['d', 'a', 'y', 'l', 'i', 'g', 'h', 't'] (by decide)) (hD ['d', 'a', 'y', 'l', 'i', 'g', 'h', 't'] (by decide))
    have hstep5 : replaceL ['s', 't', 'a', 't', 'u', 's'] ['S']
        (['\x7b', '\"', 'T', 'S', '\"', ':', ' '] ++ '\"' ::
          (ISO ++ '\"' ::
            ([',', ' ', '\"', 'T', '\"', ':'] ++ ' ' ::
              (TT ++ ',' ::
                ([' ', '\"', 'L', '\"', ':'] ++ ' ' ::
                  (LL ++ ',' ::
                    ([' ', '\"', 'D', '\"', ':'] ++ ' ' ::
                      (DD ++ ',' ::
                        ([' ', '\"', 's', 't', 'a', 't', 'u', 's', '\"', ':', ' ', 't', 'r', 'u', 'e', '\x7d', '\n']))))))))) =
        ['\x7b', '\"', 'T', 'S', '\"', ':', ' '] ++ '\"' ::
          (ISO ++ '\"' ::
            ([',', ' ', '\"', 'T', '\"', ':'] ++ ' ' ::
              (TT ++ ',' ::
                ([' ', '\"', 'L', '\"', ':'] ++ ' ' ::
                  (LL ++ ',' ::
                    ([' ', '\"', 'D', '\"', ':'] ++ ' ' ::
                      (DD ++ ',' ::
                        ([' ', '\"', 'S', '\"', ':', ' ', 't', 'r', 'u', 'e', '\x7d', '\n'])))))))) :=
      replaceL_json_skeleton ['s', 't', 'a', 't', 'u', 's'] ['S']
        (by decide) (by decide) (by decide) (by decide)
        ['\x7b', '\"', 'T', 'S', '\"', ':', ' ']
        [',', ' ', '\"', 'T', '\"', ':']
        [' ', '\"', 'L', '\"', ':']
        [' ', '\"', 'D', '\"', ':']
        [' ', '\"', 's', 't', 'a', 't', 'u', 's', '\"', ':', ' ', 't', 'r', 'u', 'e', '\x7d', '\n']
        ISO TT LL DD
        (hU ['s', 't', 'a', 't', 'u', 's'] (by decide)) (hT ['s', 't', 'a', 't', 'u', 's'] (by decide))
        (hL ['s', 't', 'a', 't', 'u', 's'] (by decide)) (hD ['s', 't', 'a', 't', 'u', 's'] (by decide))
    rw [hline]
    unfold convertLine
    rw [if_pos htrig]
    have hfold : renamePairs.foldl (fun l pr => replaceL pr.1 pr.2 l)
        (['\x7b', '\"', 'u', 't', 'c', '\"', ':', ' '] ++ '\"' ::
          (ISO ++ '\"' ::
            ([',', ' ', '\"', 't', 'e', 'm', 'p', 'e', 'r', 'a', 't', 'u', 'r', 'e', '\"', ':'] ++ ' ' ::
              (TT ++ ',' ::
                ([' ', '\"', 'l', 'i', 'g', 'h', 't', 'l', 'e', 'v', 'e', 'l', '\"', ':'] ++ ' ' ::
                  (LL ++ ',' ::
                    ([' ', '\"', 'd', 'a', 'y', 'l', 'i', 'g', 'h', 't', '\"', ':'] ++ ' ' ::
                      (DD ++ ',' ::
                        ([' ', '\"', 's', 't', 'a', 't', 'u', 's', '\"', ':', ' ', 't', 'r', 'u', 'e', '\x7d', '\n']))))))))) =
        replaceL ['s', 't', 'a', 't', 'u', 's'] ['S'] (replaceL ['d', 'a', 'y', 'l', 'i', 'g', 'h', 't'] ['D']
          (replaceL ['l', 'i', 'g', 'h', 't', 'l', 'e', 'v', 'e', 'l'] ['L'] (replaceL ['t', 'e', 'm', 'p', 'e', 'r', 'a', 't', 'u', 'r', 'e'] ['T']
            (replaceL ['u', 't', 'c'] ['T', 'S']
              (['\x7b', '\"', 'u', 't', 'c', '\"', ':', ' '] ++ '\"' ::
                (ISO ++ '\"' ::
                  ([',', ' ', '\"', 't', 'e', 'm', 'p', 'e', 'r', 'a', 't', 'u', 'r', 'e', '\"', ':'] ++ ' ' ::
                    (TT ++ ',' ::
                      ([' ', '\"', 'l', 'i', 'g', 'h', 't', 'l', 'e', 'v', 'e', 'l', '\"', ':'] ++ ' ' ::
                        (LL ++ ',' ::
                          ([' ', '\"', 'd', 'a', 'y', 'l', 'i', 'g', 'h', 't', '\"', ':'] ++ ' ' ::
                            (DD ++ ',' ::
                              ([' ', '\"', 's', 't', 'a', 't', 'u', 's', '\"', ':', ' ', 't', 'r', 'u', 'e', '\x7d', '\n']))))))))))))) := rfl
    rw [hfold, hstep1, hstep2, hstep3, hstep4, hstep5]
    have hsplit : (['\x7b', '\"', 'T', 'S', '\"', ':', ' '] ++ '\"' ::
          (ISO ++ '\"' ::
            ([',', ' ', '\"', 'T', '\"', ':'] ++ ' ' ::
              (TT ++ ',' ::
                ([' ', '\"', 'L', '\"', ':'] ++ ' ' ::
                  (LL ++ ',' ::
                    ([' ', '\"', 'D', '\"', ':'] ++ ' ' ::
                      (DD ++ ',' ::
                        ([' ', '\"', 'S', '\"', ':', ' ', 't', 'r', 'u', 'e', '\x7d', '\n']))))))))) =
        (['\x7b', '\"', 'T', 'S', '\"', ':', ' '] ++ '\"' ::
          (ISO ++ '\"' ::
            ([',', ' ', '\"', 'T', '\"', ':'] ++ ' ' ::
              (TT ++ ',' ::
                ([' ', '\"', 'L', '\"', ':'] ++ ' ' ::
                  (LL ++ ',' ::
                    ([' ', '\"', 'D', '\"', ':'] ++ ' ' ::
                      (DD ++ [',', ' ', '\"', 'S', '\"', ':', ' ', 't', 'r', 'u', 'e'])))))))) ++ ['\x7d', '\n'] := by
      simp [List.append_assoc]
    rw [hsplit, pyRstrip_close]
    simp [jsonLine, jsonValueStrs, jsonEntry, longNamesL, shortNamesL,
      List.intercalate, List.intersperse, List.append_assoc]


/-- Witness for C8 at a concrete rendered Reading. -/
theorem json_long_short_roundtrip_witness :
    (noLongName sampleRendered.utcIso ∧ noLongName sampleRendered.temperatureStr ∧
     noLongName sampleRendered.lightlevelStr ∧ noLongName sampleRendered.daylightStr) ∧
    convertLine (jsonLine false sampleRendered ++ ['\n']) = jsonLine true sampleRendered :=
  ⟨⟨by unfold noLongName; decide, by unfold noLongName; decide,
    by unfold noLongName; decide, by unfold noLongName; decide⟩,
   json_long_short_roundtrip sampleRendered (by unfold noLongName; decide)
     (by unfold noLongName; decide) (by unfold noLongName; decide)
     (by unfold noLongName; decide)⟩
